import Mathlib

/-!
Shallow embedding of `src/Visualization/Visualizer.h` (Open3DV, namespace
`three`).  Doubles are modelled as exact rationals `ℚ`: every operation the
header performs on them (addition, multiplication by the constant `1.0`,
comparison) is exact at the inputs of interest, so `ℚ` is a faithful model
of the header's arithmetic.  Geometry pointers are modelled as values of an
arbitrary type, since the registry never inspects them.
-/

namespace Three

/-- `enum PointColorOption` of `Visualizer` (Visualizer.h lines 45-51). -/
inductive PointColorOption where
  | POINTCOLOR_DEFAULT
  | POINTCOLOR_COLOR
  | POINTCOLOR_X
  | POINTCOLOR_Y
  | POINTCOLOR_Z
  deriving DecidableEq, Repr

/-- `const double POINT_SIZE_MAX = 25.0` (Visualizer.h line 55). -/
def POINT_SIZE_MAX : ℚ := 25

/-- `const double POINT_SIZE_MIN = 1.0` (Visualizer.h line 56). -/
def POINT_SIZE_MIN : ℚ := 1

/-- `const double POINT_SIZE_STEP = 1.0` (Visualizer.h line 57). -/
def POINT_SIZE_STEP : ℚ := 1

/-- `const double POINT_SIZE_DEFAULT = 5.0` (Visualizer.h line 58). -/
def POINT_SIZE_DEFAULT : ℚ := 5

/-- `struct PointCloudRenderMode` data members (Visualizer.h lines 60-62). -/
structure PointCloudRenderMode where
  point_size : ℚ
  point_color_option : PointColorOption
  show_normal : Bool
  deriving DecidableEq, Repr

/-- The `PointCloudRenderMode()` constructor (Visualizer.h lines 64-69):
`point_color_option(POINTCOLOR_DEFAULT)`, `show_normal(false)`,
`point_size = POINT_SIZE_DEFAULT`. -/
def PointCloudRenderMode.init : PointCloudRenderMode where
  point_size := POINT_SIZE_DEFAULT
  point_color_option := PointColorOption.POINTCOLOR_DEFAULT
  show_normal := false

/-- `PointCloudRenderMode::ChangePointSize(double change)` (Visualizer.h
lines 71-78): compute `point_size + change * POINT_SIZE_STEP` and commit it
only when it lies within `[POINT_SIZE_MIN, POINT_SIZE_MAX]`. -/
def PointCloudRenderMode.ChangePointSize (m : PointCloudRenderMode)
    (change : ℚ) : PointCloudRenderMode :=
  let new_point_size := m.point_size + change * POINT_SIZE_STEP
  if POINT_SIZE_MIN ≤ new_point_size ∧ new_point_size ≤ POINT_SIZE_MAX then
    { m with point_size := new_point_size }
  else
    m

/-- A sequence of `ChangePointSize` calls applied left to right. -/
def applyChanges (m : PointCloudRenderMode) (ds : List ℚ) :
    PointCloudRenderMode :=
  ds.foldl PointCloudRenderMode.ChangePointSize m

/-- `enum MeshRenderOption` of `Visualizer` (Visualizer.h lines 81-86). -/
inductive MeshRenderOption where
  | MESHRENDER_VERTEXCOLOR
  | MESHRENDER_FLATSHADE
  | MESHRENDER_SMOOTHSHADE
  | MESHRENDER_WIREFRAME
  deriving DecidableEq, Repr

/-- `const Eigen::Vector3d DEFAULT_COLOR = Eigen::Vector3d(0.5, 0.5, 0.5)`
of `struct MeshRenderMode` (Visualizer.h line 90). -/
def DEFAULT_COLOR : ℚ × ℚ × ℚ := (1 / 2, 1 / 2, 1 / 2)

/-- `struct MeshRenderMode` data member (Visualizer.h line 92). -/
structure MeshRenderMode where
  mesh_render_option : MeshRenderOption
  deriving DecidableEq, Repr

/-- The `MeshRenderMode()` constructor (Visualizer.h lines 94-96):
`mesh_render_option(MESHRENDER_FLATSHADE)`. -/
def MeshRenderMode.init : MeshRenderMode where
  mesh_render_option := MeshRenderOption.MESHRENDER_FLATSHADE

/-- `struct MouseControl` data members (Visualizer.h lines 102-105). -/
structure MouseControl where
  is_mouse_left_button_down : Bool
  is_control_key_down : Bool
  mouse_position_x : ℚ
  mouse_position_y : ℚ
  deriving DecidableEq, Repr

/-- The `MouseControl()` constructor (Visualizer.h lines 107-112). -/
def MouseControl.init : MouseControl where
  is_mouse_left_button_down := false
  is_control_key_down := false
  mouse_position_x := 0
  mouse_position_y := 0

/-- Modelled from the spec: the key-press handler that cycles
`point_color_option` lives in the missing Visualizer.cpp; the spec (§4.1)
says cycling is "a simple next-in-enum-with-wraparound operation" over
{DEFAULT, COLOR, X, Y, Z} declared in Visualizer.h lines 45-51. -/
def cyclePointColorOption : PointColorOption → PointColorOption
  | PointColorOption.POINTCOLOR_DEFAULT => PointColorOption.POINTCOLOR_COLOR
  | PointColorOption.POINTCOLOR_COLOR => PointColorOption.POINTCOLOR_X
  | PointColorOption.POINTCOLOR_X => PointColorOption.POINTCOLOR_Y
  | PointColorOption.POINTCOLOR_Y => PointColorOption.POINTCOLOR_Z
  | PointColorOption.POINTCOLOR_Z => PointColorOption.POINTCOLOR_DEFAULT

/-- Modelled from the spec: `Visualizer::AddGeometry` is only declared in
Visualizer.h (line 143, body in the missing Visualizer.cpp); the spec
(§4.2) says `Add(geometry)` appends a shared read-only reference to the
ordered registry (`std::vector geometry_ptrs_`, Visualizer.h line 206),
preserving insertion order, with no removal and no deduplication. -/
def AddGeometry {G : Type} (registry : List G) (geometry_ptr : G) : List G :=
  registry ++ [geometry_ptr]

/-- Modelled from the spec: `Visualizer::HasGeometry` is only declared in
Visualizer.h (line 144); the spec (§4.2) says the emptiness check "reports
whether any geometry is registered". -/
def HasGeometry {G : Type} (registry : List G) : Bool :=
  !registry.isEmpty

/-- A sequence of `AddGeometry` calls applied left to right. -/
def addAll {G : Type} (registry : List G) (gs : List G) : List G :=
  gs.foldl AddGeometry registry

/-- Modelled from the spec: the window-lifecycle state machine of the
event dispatcher (§4.5): states {Open, Closing, Closed}. -/
inductive WindowState where
  | Open
  | Closing
  | Closed
  deriving DecidableEq, Repr

/-- Modelled from the spec: the lifecycle events of §4.5 — a close request
(user closes the window), completion of teardown, and any other input
event (mouse, key, refresh, resize), which does not change the lifecycle
state. -/
inductive WindowEvent where
  | closeRequest
  | teardownComplete
  | otherEvent
  deriving DecidableEq, Repr

/-- Modelled from the spec: the transition relation of §4.5 —
Open→Closing on a close request, Closing→Closed once teardown completes,
Closed is terminal; all other events leave the state unchanged. -/
def windowStep : WindowState → WindowEvent → WindowState
  | WindowState.Open, WindowEvent.closeRequest => WindowState.Closing
  | WindowState.Closing, WindowEvent.teardownComplete => WindowState.Closed
  | s, _ => s

/-- The lifecycle state after processing a queue of events. -/
def runEvents (s : WindowState) (evs : List WindowEvent) : WindowState :=
  evs.foldl windowStep s

/-- Modelled from the spec: the return value of `Visualizer::PollEvents`
and `Visualizer::WaitEvents` (declared Visualizer.h lines 133 and 139,
bodies in the missing Visualizer.cpp); the spec (§4.3, §8) says both
"return `false` once the window has been closed, `true` otherwise". -/
def pollEventsResult (s : WindowState) : Bool :=
  decide (s ≠ WindowState.Closed)

/-- Default argument `window_name = "Open3DV"` of `Visualizer::CreateWindow`
(Visualizer.h line 122). -/
def CREATE_WINDOW_DEFAULT_TITLE : String := "Open3DV"

/-- Default argument `width = 640` of `Visualizer::CreateWindow`
(Visualizer.h line 123). -/
def CREATE_WINDOW_DEFAULT_WIDTH : Int := 640

/-- Default argument `height = 480` of `Visualizer::CreateWindow`
(Visualizer.h line 123). -/
def CREATE_WINDOW_DEFAULT_HEIGHT : Int := 480

/-- Default argument `left = 50` of `Visualizer::CreateWindow`
(Visualizer.h line 124). -/
def CREATE_WINDOW_DEFAULT_LEFT : Int := 50

/-- Default argument `top = 50` of `Visualizer::CreateWindow`
(Visualizer.h line 124). -/
def CREATE_WINDOW_DEFAULT_TOP : Int := 50

/-- Modelled from the spec: the body of `Visualizer::CreateWindow` is in
the missing Visualizer.cpp; the header declares it returning `bool`
(Visualizer.h lines 122-124) and the spec (§6, §7) says it "fails if
context/window creation fails", signalled by a `false` return.  The
environment's success or failure of window/context creation is the
parameter; the result records whether a window now exists and what the
call returned. -/
def CreateWindow (creationSucceeds : Bool) : Bool × Bool :=
  (creationSucceeds, creationSucceeds)

/-! ### Helper lemmas (shared) -/

/-- Scalar characterisation of `ChangePointSize`: the new `point_size` is
the recomputed value when it is in `[POINT_SIZE_MIN, POINT_SIZE_MAX]`, and
the old value otherwise. -/
theorem ChangePointSize_point_size (m : PointCloudRenderMode) (c : ℚ) :
    (m.ChangePointSize c).point_size =
      if POINT_SIZE_MIN ≤ m.point_size + c * POINT_SIZE_STEP ∧
          m.point_size + c * POINT_SIZE_STEP ≤ POINT_SIZE_MAX then
        m.point_size + c * POINT_SIZE_STEP
      else m.point_size := by
  unfold PointCloudRenderMode.ChangePointSize
  dsimp only
  split <;> rfl

/-- An out-of-range recomputed value leaves the whole record unchanged. -/
theorem ChangePointSize_of_not_in_range (m : PointCloudRenderMode) (c : ℚ)
    (h : ¬ (POINT_SIZE_MIN ≤ m.point_size + c * POINT_SIZE_STEP ∧
        m.point_size + c * POINT_SIZE_STEP ≤ POINT_SIZE_MAX)) :
    m.ChangePointSize c = m := by
  unfold PointCloudRenderMode.ChangePointSize
  exact if_neg h

/-- An in-range recomputed value is committed. -/
theorem ChangePointSize_of_in_range (m : PointCloudRenderMode) (c : ℚ)
    (h : POINT_SIZE_MIN ≤ m.point_size + c * POINT_SIZE_STEP ∧
        m.point_size + c * POINT_SIZE_STEP ≤ POINT_SIZE_MAX) :
    (m.ChangePointSize c).point_size =
      m.point_size + c * POINT_SIZE_STEP := by
  rw [ChangePointSize_point_size, if_pos h]

/-- One `ChangePointSize` call preserves the bounds invariant. -/
theorem ChangePointSize_preserves_bounds (m : PointCloudRenderMode) (c : ℚ)
    (h : POINT_SIZE_MIN ≤ m.point_size ∧ m.point_size ≤ POINT_SIZE_MAX) :
    POINT_SIZE_MIN ≤ (m.ChangePointSize c).point_size ∧
      (m.ChangePointSize c).point_size ≤ POINT_SIZE_MAX := by
  rw [ChangePointSize_point_size]
  split
  · next hin => exact hin
  · exact h

/-- A whole sequence of `ChangePointSize` calls preserves the bounds
invariant. -/
theorem applyChanges_bounds (ds : List ℚ) (m : PointCloudRenderMode)
    (h : POINT_SIZE_MIN ≤ m.point_size ∧ m.point_size ≤ POINT_SIZE_MAX) :
    POINT_SIZE_MIN ≤ (applyChanges m ds).point_size ∧
      (applyChanges m ds).point_size ≤ POINT_SIZE_MAX := by
  induction ds generalizing m with
  | nil => exact h
  | cons d ds ih => exact ih _ (ChangePointSize_preserves_bounds m d h)

/-- The fresh constructor state satisfies the bounds invariant. -/
theorem init_point_size_bounds :
    POINT_SIZE_MIN ≤ PointCloudRenderMode.init.point_size ∧
      PointCloudRenderMode.init.point_size ≤ POINT_SIZE_MAX := by
  constructor <;> norm_num [PointCloudRenderMode.init, POINT_SIZE_MIN,
    POINT_SIZE_MAX, POINT_SIZE_DEFAULT]

/-- Registering a list of geometries appends it to the registry. -/
theorem addAll_eq_append {G : Type} (registry : List G) (gs : List G) :
    addAll registry gs = registry ++ gs := by
  induction gs generalizing registry with
  | nil => simp [addAll]
  | cons g gs ih =>
      simp only [addAll, List.foldl_cons] at ih ⊢
      rw [ih, AddGeometry, List.append_assoc]
      rfl

/-- The `Closed` lifecycle state is terminal. -/
theorem runEvents_closed (more : List WindowEvent) :
    runEvents WindowState.Closed more = WindowState.Closed := by
  induction more with
  | nil => rfl
  | cons e more ih => cases e <;> exact ih

/-- Processing a concatenation of event queues is processing them in
order. -/
theorem runEvents_append (s : WindowState) (evs more : List WindowEvent) :
    runEvents s (evs ++ more) = runEvents (runEvents s evs) more :=
  List.foldl_append windowStep s evs more

/-- `pollEventsResult` is `false` only in the `Closed` state. -/
theorem pollEventsResult_eq_false (s : WindowState)
    (h : pollEventsResult s = false) : s = WindowState.Closed := by
  cases s <;> simp_all [pollEventsResult]

/-! ### Claim theorems -/

/-- C1: from a freshly constructed `PointCloudRenderMode`, every sequence
of `ChangePointSize` calls keeps `point_size` in `[1.0, 25.0]`; each call
recomputes `point_size + delta * 1.0` and commits it only when the result
is in `[1.0, 25.0]` inclusive, and a call whose result lies outside that
interval leaves the state unchanged (a no-op, not an error). -/
theorem changePointSize_invariant (ds : List ℚ) :
    (POINT_SIZE_MIN ≤ (applyChanges PointCloudRenderMode.init ds).point_size ∧
      (applyChanges PointCloudRenderMode.init ds).point_size ≤
        POINT_SIZE_MAX) ∧
    (∀ (m : PointCloudRenderMode) (c : ℚ),
      POINT_SIZE_MIN ≤ m.point_size + c * POINT_SIZE_STEP ∧
          m.point_size + c * POINT_SIZE_STEP ≤ POINT_SIZE_MAX →
      (m.ChangePointSize c).point_size =
        m.point_size + c * POINT_SIZE_STEP) ∧
    (∀ (m : PointCloudRenderMode) (c : ℚ),
      ¬ (POINT_SIZE_MIN ≤ m.point_size + c * POINT_SIZE_STEP ∧
          m.point_size + c * POINT_SIZE_STEP ≤ POINT_SIZE_MAX) →
      m.ChangePointSize c = m) := by
  refine ⟨applyChanges_bounds ds PointCloudRenderMode.init
    init_point_size_bounds, ?_, ?_⟩
  · intro m c h
    exact ChangePointSize_of_in_range m c h
  · intro m c h
    exact ChangePointSize_of_not_in_range m c h

/-- C1 witness: the invariant at the concrete call sequence
`[100, -3, 7]`, the commit branch at `init` with delta `2`, and the no-op
branch at `init` with delta `100`. -/
theorem changePointSize_invariant_witness :
    (POINT_SIZE_MIN ≤
        (applyChanges PointCloudRenderMode.init [100, -3, 7]).point_size ∧
      (applyChanges PointCloudRenderMode.init [100, -3, 7]).point_size ≤
        POINT_SIZE_MAX) ∧
    (PointCloudRenderMode.init.ChangePointSize 2).point_size =
      PointCloudRenderMode.init.point_size + 2 * POINT_SIZE_STEP ∧
    PointCloudRenderMode.init.ChangePointSize 100 =
      PointCloudRenderMode.init :=
  ⟨(changePointSize_invariant [100, -3, 7]).1,
    (changePointSize_invariant []).2.1 PointCloudRenderMode.init 2
      (by norm_num [PointCloudRenderMode.init, POINT_SIZE_MIN,
        POINT_SIZE_MAX, POINT_SIZE_STEP, POINT_SIZE_DEFAULT]),
    (changePointSize_invariant []).2.2 PointCloudRenderMode.init 100
      (by norm_num [PointCloudRenderMode.init, POINT_SIZE_MIN,
        POINT_SIZE_MAX, POINT_SIZE_STEP, POINT_SIZE_DEFAULT])⟩

/-- C2 counterexample: `ChangePointSize` does not clamp to the nearer
boundary.  At the fresh state (`point_size = 5`) with delta `100`, the
recomputed value `105` is out of range; the code leaves `point_size` at
`5`, whereas clamping would set it to `25`. -/
theorem changePointSize_clamp_refuted :
    ¬ ((PointCloudRenderMode.init.ChangePointSize 100).point_size =
        max POINT_SIZE_MIN (min POINT_SIZE_MAX
          (PointCloudRenderMode.init.point_size +
            100 * POINT_SIZE_STEP))) := by
  rw [ChangePointSize_point_size]
  norm_num [PointCloudRenderMode.init, POINT_SIZE_MIN, POINT_SIZE_MAX,
    POINT_SIZE_STEP, POINT_SIZE_DEFAULT, min_def, max_def]

/-- C2 amended: after `ChangePointSize(delta)`, `point_size` equals
`point_size + delta * 1.0` when that value lies in `[1.0, 25.0]`, and is
unchanged otherwise (an out-of-range result is discarded, not clamped to a
boundary). -/
theorem changePointSize_commit_or_reject (m : PointCloudRenderMode)
    (c : ℚ) :
    (m.ChangePointSize c).point_size =
      if POINT_SIZE_MIN ≤ m.point_size + c * POINT_SIZE_STEP ∧
          m.point_size + c * POINT_SIZE_STEP ≤ POINT_SIZE_MAX then
        m.point_size + c * POINT_SIZE_STEP
      else m.point_size :=
  ChangePointSize_point_size m c

/-- C3: from the default point size `5.0`, twenty `ChangePointSize(1)`
calls yield exactly `25.0`, and a twenty-first call leaves it at `25.0`. -/
theorem changePointSize_twenty_steps :
    (applyChanges PointCloudRenderMode.init
      (List.replicate 20 1)).point_size = 25 ∧
    (applyChanges PointCloudRenderMode.init
      (List.replicate 21 1)).point_size = 25 := by
  constructor <;>
    norm_num [applyChanges, PointCloudRenderMode.ChangePointSize,
      PointCloudRenderMode.init, POINT_SIZE_MIN, POINT_SIZE_MAX,
      POINT_SIZE_STEP, POINT_SIZE_DEFAULT, List.replicate]

/-- C4: a freshly constructed `PointCloudRenderMode` has
`point_size = 5.0`, `point_color_option = POINTCOLOR_DEFAULT` and
`show_normal = false`; a freshly constructed `MeshRenderMode` has
`mesh_render_option = MESHRENDER_FLATSHADE`, with the default color
constant `(0.5, 0.5, 0.5)`. -/
theorem default_constructor_state :
    PointCloudRenderMode.init.point_size = 5 ∧
    PointCloudRenderMode.init.point_color_option =
      PointColorOption.POINTCOLOR_DEFAULT ∧
    PointCloudRenderMode.init.show_normal = false ∧
    MeshRenderMode.init.mesh_render_option =
      MeshRenderOption.MESHRENDER_FLATSHADE ∧
    DEFAULT_COLOR = (1 / 2, 1 / 2, 1 / 2) :=
  ⟨rfl, rfl, rfl, rfl, rfl⟩

/-- C5: applying the `point_color_option` cycle operation five times
returns every starting option to itself (the 5-fold cycle is the
identity, with wraparound from `Z` back to `DEFAULT`). -/
theorem pointColorOption_cycle_five (o : PointColorOption) :
    cyclePointColorOption (cyclePointColorOption (cyclePointColorOption
      (cyclePointColorOption (cyclePointColorOption o)))) = o := by
  cases o <;> rfl

/-- C6: the registry is empty before any `AddGeometry` call, so
`HasGeometry()` is `false`; after any nonempty sequence of `AddGeometry`
calls `HasGeometry()` is `true`; and the registry after the calls is
exactly the insertion sequence (insertion order preserved, no removal, no
deduplication — a duplicate reference is stored again). -/
theorem geometry_registry_spec :
    HasGeometry ([] : List Nat) = false ∧
    (∀ gs : List Nat, gs ≠ [] →
      HasGeometry (addAll ([] : List Nat) gs) = true) ∧
    (∀ gs : List Nat, addAll ([] : List Nat) gs = gs) := by
  refine ⟨rfl, ?_, ?_⟩
  · intro gs hgs
    rw [addAll_eq_append, List.nil_append]
    cases gs with
    | nil => exact absurd rfl hgs
    | cons g gs => rfl
  · intro gs
    rw [addAll_eq_append, List.nil_append]

/-- C6 witness: registering the duplicate-containing sequence `[7, 7]`
makes `HasGeometry` true and stores both copies in insertion order. -/
theorem geometry_registry_spec_witness :
    HasGeometry (addAll ([] : List Nat) [7, 7]) = true :=
  geometry_registry_spec.2.1 [7, 7] (by decide)

/-- C7: `PollEvents`/`WaitEvents` return `true` on every call made while
the window is not yet closed, and once a call has returned `false` (the
close transition completed), every later call — after any further events —
returns `false` as well. -/
theorem pollEvents_false_forever (s0 : WindowState)
    (evs more : List WindowEvent)
    (h : pollEventsResult (runEvents s0 evs) = false) :
    pollEventsResult (runEvents s0 (evs ++ more)) = false ∧
    (∀ s : WindowState, s ≠ WindowState.Closed →
      pollEventsResult s = true) := by
  constructor
  · rw [runEvents_append, pollEventsResult_eq_false _ h, runEvents_closed]
    rfl
  · intro s hs
    cases s <;> simp_all [pollEventsResult]

/-- C7 witness: from `Open`, the queue `[closeRequest, teardownComplete]`
completes the close transition, `pollEventsResult` is `false`, and stays
`false` after a further `otherEvent`. -/
theorem pollEvents_false_forever_witness :
    pollEventsResult (runEvents WindowState.Open
      ([WindowEvent.closeRequest, WindowEvent.teardownComplete] ++
        [WindowEvent.otherEvent])) = false ∧
    (∀ s : WindowState, s ≠ WindowState.Closed →
      pollEventsResult s = true) :=
  pollEvents_false_forever WindowState.Open
    [WindowEvent.closeRequest, WindowEvent.teardownComplete]
    [WindowEvent.otherEvent] (by decide)

/-- C8: `CreateWindow` has default arguments title `"Open3DV"`, width
`640`, height `480`, left `50`, top `50`; it returns a `bool`, and the
return value is `false` exactly when window/context creation fails (the
window exists afterwards exactly when creation succeeded, which is why it
must run before any other operation). -/
theorem createWindow_defaults_and_failure :
    CREATE_WINDOW_DEFAULT_TITLE = "Open3DV" ∧
    CREATE_WINDOW_DEFAULT_WIDTH = 640 ∧
    CREATE_WINDOW_DEFAULT_HEIGHT = 480 ∧
    CREATE_WINDOW_DEFAULT_LEFT = 50 ∧
    CREATE_WINDOW_DEFAULT_TOP = 50 ∧
    (∀ ok : Bool, ((CreateWindow ok).2 = false ↔ ok = false) ∧
      (CreateWindow ok).1 = ok) := by
  refine ⟨rfl, rfl, rfl, rfl, rfl, ?_⟩
  intro ok
  cases ok <;> simp [CreateWindow]

/-- C8 witness: the defaults hold and a failing creation returns
`false` while a succeeding one returns `true`. -/
theorem createWindow_defaults_and_failure_witness :
    (CreateWindow false).2 = false ∧ (CreateWindow true).2 = true :=
  ⟨((createWindow_defaults_and_failure.2.2.2.2.2 false).1).2 rfl,
    by
      have h := (createWindow_defaults_and_failure.2.2.2.2.2 true).1
      cases hv : (CreateWindow true).2 with
      | false => exact absurd (h.1 hv) (by decide)
      | true => rfl⟩

/-- C9: a freshly constructed `MouseControl` has
`is_mouse_left_button_down = false`, `is_control_key_down = false`, and
the cursor position at the origin `(0.0, 0.0)`. -/
theorem mouseControl_init_state :
    MouseControl.init.is_mouse_left_button_down = false ∧
    MouseControl.init.is_control_key_down = false ∧
    MouseControl.init.mouse_position_x = 0 ∧
    MouseControl.init.mouse_position_y = 0 :=
  ⟨rfl, rfl, rfl, rfl⟩

/-- C10: for an in-bounds starting `point_size`, `ChangePointSize` with a
nonnegative delta never decreases `point_size`, with a nonpositive delta
never increases it, and `ChangePointSize(0)` leaves the state
unchanged. -/
theorem changePointSize_sign_monotone (m : PointCloudRenderMode) (c : ℚ)
    (hlo : POINT_SIZE_MIN ≤ m.point_size)
    (hhi : m.point_size ≤ POINT_SIZE_MAX) :
    (0 ≤ c → m.point_size ≤ (m.ChangePointSize c).point_size) ∧
    (c ≤ 0 → (m.ChangePointSize c).point_size ≤ m.point_size) ∧
    m.ChangePointSize 0 = m := by
  refine ⟨?_, ?_, ?_⟩
  · intro hc
    rw [ChangePointSize_point_size]
    simp only [POINT_SIZE_STEP, mul_one]
    split
    · linarith
    · exact le_refl _
  · intro hc
    rw [ChangePointSize_point_size]
    simp only [POINT_SIZE_STEP, mul_one]
    split
    · linarith
    · exact le_refl _
  · have h0 : m.point_size + 0 * POINT_SIZE_STEP = m.point_size := by
      ring
    unfold PointCloudRenderMode.ChangePointSize
    dsimp only
    rw [h0, if_pos ⟨hlo, hhi⟩]

/-- C10 witness: at the fresh state, a delta of `2` does not decrease the
size, a delta of `-2` does not increase it, and a delta of `0` is the
identity. -/
theorem changePointSize_sign_monotone_witness :
    ((0 : ℚ) ≤ 2 → PointCloudRenderMode.init.point_size ≤
      (PointCloudRenderMode.init.ChangePointSize 2).point_size) ∧
    ((2 : ℚ) ≤ 0 → (PointCloudRenderMode.init.ChangePointSize 2).point_size ≤
      PointCloudRenderMode.init.point_size) ∧
    PointCloudRenderMode.init.ChangePointSize 0 =
      PointCloudRenderMode.init :=
  changePointSize_sign_monotone PointCloudRenderMode.init 2
    (by norm_num [PointCloudRenderMode.init, POINT_SIZE_MIN,
      POINT_SIZE_DEFAULT])
    (by norm_num [PointCloudRenderMode.init, POINT_SIZE_MAX,
      POINT_SIZE_DEFAULT])

end Three
